import Mathlib

/-!
Shallow embedding of the TEC operation of LoSiTo
(`losito/operations/tec.py`, function `run`) and verification of the
specification's claims about it.

Modelling conventions:
* machine floats are modelled by `ℚ`;
* numpy arrays are modelled by total functions on their index tuples —
  only indices inside the array's shape are ever related to the source;
* a Python exception is modelled by `Except.error`; a normal return of the
  integer status `r` with the mutated observation context and filesystem is
  `Except.ok (r, obs, fs)`.  An `Except.error` result carries no state:
  the exception propagates out of `run` before any filesystem write or
  parameter-set update of the aborted branch takes effect;
* the filesystem is a map from paths to optional h5parm contents; only the
  output h5parm path is modelled (the input FITS cube is passed by value);
* the worker-pool maps of the wave branch are pure; their results feed
  only the local `alltec` array, which the branch then abandons at its
  unconditional `0/0`, so the branch is modelled up to that fault.
-/

namespace Losito

/-- Python `int()` applied to a rational: truncation toward zero, i.e. the
numerator `tdiv` the denominator.  This models line 95/96 of tec.py,
`int(w.wcs_world2pix(ra_dec, 0)[0][0])`. -/
def pyInt (q : ℚ) : ℤ :=
  q.num.tdiv q.den

/-- The four `predict.applycal.*` keys of `obs.parset_parameters` that the
TEC operation writes (tec.py lines 166-172).  `none` models an absent key. -/
structure ParamSet where
  parmdb : Option String
  steps : Option (List String)
  correction : Option String
  tecCorrection : Option String
deriving DecidableEq

/-- Observation context `obs`: the sky-model patches as (name, ra, dec)
triples (the common source of `get_patch_names` and `get_patch_coords`),
the station names and positions, and the shared parameter set. -/
structure Obs where
  patches : List (String × ℚ × ℚ)
  stations : List String
  stationpos : List (ℚ × ℚ × ℚ)
  parset : ParamSet

/-- Input FITS cube: `data.shape = (ntimes, nfreqs, nstations, ny, nx)`,
the data grid as a total function of (t, f, s, y, x), the WCS sky-to-pixel
projection `world2pix` (returning the fractional (x, y) pixel pair), and
the CRVAL/CDELT linear axis descriptors for the time axis (FITS axis 4)
and the frequency axis (FITS axis 3). -/
structure FitsCube where
  ntimes : Nat
  nfreqs : Nat
  nstations : Nat
  ny : Nat
  nx : Nat
  data : Nat → Nat → Nat → Nat → Nat → ℚ
  world2pix : ℚ → ℚ → ℚ × ℚ
  crval4 : ℚ
  cdelt4 : ℚ
  crval3 : ℚ
  cdelt3 : ℚ

/-- Integer x pixel of a direction: `x = int(w.wcs_world2pix(ra_dec, 0)[0][0])`. -/
def pixelX (cube : FitsCube) (ra dec : ℚ) : ℤ :=
  pyInt (cube.world2pix ra dec).1

/-- Integer y pixel of a direction: `y = int(w.wcs_world2pix(ra_dec, 0)[0][1])`. -/
def pixelY (cube : FitsCube) (ra dec : ℚ) : ℤ :=
  pyInt (cube.world2pix ra dec).2

/-- Out-of-bounds test of tec.py line 97, exactly as written there:
`x < 0 or x > nx or y < 0 or y > ny` (note `>`, not `>=`). -/
def flaggedDir (cube : FitsCube) (ra dec : ℚ) : Bool :=
  decide (pixelX cube ra dec < 0) || decide (pixelX cube ra dec > (cube.nx : ℤ)) ||
  decide (pixelY cube ra dec < 0) || decide (pixelY cube ra dec > (cube.ny : ℤ))

/-- Predicate for the direction making the lookup `data[t, f, s, y, x]`
(line 104) raise `IndexError`: it passed the line-97 guard with `x = nx` or
`y = ny`, and the three nested loops execute at least one iteration. -/
def crashesDir (cube : FitsCube) (ra dec : ℚ) : Bool :=
  !flaggedDir cube ra dec &&
  (decide (pixelX cube ra dec = (cube.nx : ℤ)) || decide (pixelY cube ra dec = (cube.ny : ℤ))) &&
  decide (0 < cube.ntimes) && decide (0 < cube.nfreqs) && decide (0 < cube.nstations)

/-- Value array of the fits branch (lines 91-104), as a total function of
(t, s, d, f): initialised to `np.zeros`, set to `1.0` for a whole flagged
direction, otherwise filled from `data[t, f, s, y, x]`. -/
def fitsVals (cube : FitsCube) (patches : List (String × ℚ × ℚ)) :
    Nat → Nat → Nat → Nat → ℚ := fun t s d f =>
  match patches[d]? with
  | none => 0
  | some (_, ra, dec) =>
    if flaggedDir cube ra dec then 1
    else cube.data t f s (pixelY cube ra dec).toNat (pixelX cube ra dec).toNat

/-- Weight array of the fits branch: initialised to `np.ones(vals.shape)`
(line 92), set to `0.0` for a whole flagged direction (line 99). -/
def fitsWeights (cube : FitsCube) (patches : List (String × ℚ × ℚ)) :
    Nat → Nat → Nat → Nat → ℚ := fun _ _ d _ =>
  match patches[d]? with
  | none => 1
  | some (_, ra, dec) => if flaggedDir cube ra dec then 0 else 1

/-- Linear axis reconstruction of tec.py lines 107-112:
`[ref + (del * i) for i in range(n)]`. -/
def axisVals (ref incr : ℚ) (n : Nat) : List ℚ :=
  (List.range n).map (fun i : ℕ => ref + incr * (i : ℚ))

/-- Solution table `tec000` as written by `makeSoltab` plus its history. -/
structure SolTab where
  stype : String
  name : String
  axesNames : List String
  timeVals : List ℚ
  antVals : List String
  dirVals : List String
  freqVals : List ℚ
  valsShape : Nat × Nat × Nat × Nat
  weightsShape : Nat × Nat × Nat × Nat
  vals : Nat → Nat → Nat → Nat → ℚ
  weights : Nat → Nat → Nat → Nat → ℚ
  history : List String

/-- Solution set `sol000` with its soltabs and the two side tables. -/
structure SolSet where
  name : String
  soltabs : List SolTab
  antennaTable : List (String × (ℚ × ℚ × ℚ))
  sourceTable : List (String × (ℚ × ℚ))

/-- An h5parm file: a collection of solution sets. -/
structure H5Parm where
  solsets : List SolSet

/-- Filesystem restricted to h5parm paths: path to optional content. -/
def FS : Type :=
  String → Option H5Parm

/-- Effect of `os.remove(p)` on the modelled filesystem. -/
def fsRemove (p : String) (fs : FS) : FS := fun q =>
  if q = p then none else fs q

/-- Effect of creating a fresh h5parm with content `h` at path `p`. -/
def fsWrite (p : String) (h : H5Parm) (fs : FS) : FS := fun q =>
  if q = p then some h else fs q

/-- History entry of lines 132-133.  The format string interpolates
`h5parmFilename` into the `obs {0}` slot and `fitsFilename` into the
`FITS cube {1}` slot, exactly as the source does. -/
def createEntry (h5parmFilename fitsFilename : String) : String :=
  "CREATE (by TEC operation of LoSiTo from obs " ++ h5parmFilename ++
    " and FITS cube " ++ fitsFilename ++ ")"

/-- Soltab produced by the fits branch (lines 106-133). -/
def tecSoltab (obs : Obs) (cube : FitsCube) (h5parmFilename fitsFilename : String) : SolTab where
  stype := "tec"
  name := "tec000"
  axesNames := ["time", "ant", "dir", "freq"]
  timeVals := axisVals cube.crval4 cube.cdelt4 cube.ntimes
  antVals := obs.stations
  dirVals := obs.patches.map (fun p => p.1)
  freqVals := axisVals cube.crval3 cube.cdelt3 cube.nfreqs
  valsShape := (cube.ntimes, cube.nstations, obs.patches.length, cube.nfreqs)
  weightsShape := (cube.ntimes, cube.nstations, obs.patches.length, cube.nfreqs)
  vals := fitsVals cube obs.patches
  weights := fitsWeights cube obs.patches
  history := [createEntry h5parmFilename fitsFilename]

/-- Solset `sol000` with the antenna and source side tables (lines 119-127). -/
def tecSolset (obs : Obs) (cube : FitsCube) (h5parmFilename fitsFilename : String) : SolSet where
  name := "sol000"
  soltabs := [tecSoltab obs cube h5parmFilename fitsFilename]
  antennaTable := obs.stations.zip obs.stationpos
  sourceTable := obs.patches.map (fun p => (p.1, (p.2.1, p.2.2)))

/-- Complete h5parm content written by a successful fits-branch run. -/
def tecH5 (obs : Obs) (cube : FitsCube) (h5parmFilename fitsFilename : String) : H5Parm where
  solsets := [tecSolset obs cube h5parmFilename fitsFilename]

/-- Parameter-set update of tec.py lines 166-172: set
`predict.applycal.parmdb`, append `tec` to `predict.applycal.steps` if the
key exists else create it as `[tec]`, and set the two correction keys. -/
def updateParset (obs : Obs) (h5parmFilename : String) : Obs :=
  { obs with parset :=
    { parmdb := some h5parmFilename
      steps :=
        match obs.parset.steps with
        | some l => some (l ++ ["tec"])
        | none => some ["tec"]
      correction := some "tec000"
      tecCorrection := some "tec000" } }

/-- Python exceptions that the embedded `run` can raise. -/
inductive PyErr where
  | indexError
  | zeroDivisionError
deriving DecidableEq

/-- Shallow embedding of `run(obs, method, h5parmFilename, fitsFilename)`
of tec.py (lines 57-174).  The fits branch checks the station count
(lines 86-88, returning status 1 on mismatch), raises `IndexError` if any
direction passes the bounds guard with `x = nx` or `y = ny` (line 104),
and otherwise deletes any existing file at the output path, writes the
fresh h5parm there (lines 116-134), updates the parameter set and returns
status 0.  The wave branch raises at the unconditional `0/0` of line 161
before writing anything.  A method that is neither of the two selector
strings falls through both branches to the parameter-set update of lines
166-172 and returns status 0. -/
def run (obs : Obs) (method : String) (h5parmFilename fitsFilename : String)
    (cube : FitsCube) (fs : FS) : Except PyErr (Nat × Obs × FS) :=
  if method = "fits" then
    if cube.nstations ≠ obs.stations.length then
      .ok (1, obs, fs)
    else if obs.patches.any (fun p => crashesDir cube p.2.1 p.2.2) then
      .error .indexError
    else
      let fs1 : FS := if (fs h5parmFilename).isSome then fsRemove h5parmFilename fs else fs
      let fs2 : FS := fsWrite h5parmFilename (tecH5 obs cube h5parmFilename fitsFilename) fs1
      .ok (0, updateParset obs h5parmFilename, fs2)
  else if method = "wave" then
    .error .zeroDivisionError
  else
    .ok (0, updateParset obs h5parmFilename, fs)

/-! Concrete instances used by witnesses and counterexamples. -/

/-- Empty parameter set: none of the four keys present. -/
def pset0 : ParamSet :=
  { parmdb := none, steps := none, correction := none, tecCorrection := none }

/-- Empty filesystem. -/
def fs0 : FS := fun _ => none

/-- Observation with no patches and no stations. -/
def obs0 : Obs :=
  { patches := [], stations := [], stationpos := [], parset := pset0 }

/-- Trivial 0-size cube. -/
def cube0 : FitsCube :=
  { ntimes := 0, nfreqs := 0, nstations := 0, ny := 0, nx := 0
    data := fun _ _ _ _ _ => 0
    world2pix := fun _ _ => (mkRat 0 1, mkRat 0 1)
    crval4 := 0, cdelt4 := 0, crval3 := 0, cdelt3 := 0 }

/-- Cube of shape (1, 1, 1, 1, 1) whose WCS projects every direction to the
fractional pixel (1, 0); the x pixel 1 equals `nx` and is outside
[0, nx) = [0, 1). -/
def cubeC2 : FitsCube :=
  { ntimes := 1, nfreqs := 1, nstations := 1, ny := 1, nx := 1
    data := fun _ _ _ _ _ => mkRat 5 1
    world2pix := fun _ _ => (mkRat 1 1, mkRat 0 1)
    crval4 := 0, cdelt4 := 0, crval3 := 0, cdelt3 := 0 }

/-- Observation with one patch and one station. -/
def obsC2 : Obs :=
  { patches := [("src0", mkRat 0 1, mkRat 0 1)]
    stations := ["st0"]
    stationpos := [(0, 0, 0)]
    parset := pset0 }

/-! Claims. -/

/-- C1, counterexample: with the unrecognized method string "tid" (the very
name the docstring advertises for the wave mode), `run` does not fail and
does not leave the parameter set alone: it returns success status 0 and
applies the full parameter-set update, because tec.py has no `else` branch
for the method dispatch. -/
theorem C1_counterexample :
    run obs0 "tid" "out.h5" "" cube0 fs0 =
      .ok (0, updateParset obs0 "out.h5", fs0) ∧
    (updateParset obs0 "out.h5").parset ≠ obs0.parset := by
  exact ⟨rfl, by decide⟩

/-- C1, amended: for every method string other than "fits" and "wave" the
run operation writes no solution table (the filesystem is returned
unchanged), but it does not report an error: it still performs the full
parameter-set update of lines 166-172 and returns success status 0. -/
theorem C1_amended (obs : Obs) (method h5f ff : String) (cube : FitsCube) (fs : FS)
    (h1 : method ≠ "fits") (h2 : method ≠ "wave") :
    run obs method h5f ff cube fs = .ok (0, updateParset obs h5f, fs) := by
  simp [run, h1, h2]

/-- C1, witness for the amended theorem at method "tid". -/
theorem C1_witness :
    run obs0 "tid" "o.h5" "" cube0 fs0 = .ok (0, updateParset obs0 "o.h5", fs0) :=
  C1_amended obs0 "tid" "o.h5" "" cube0 fs0 (by decide) (by decide)

/-- C4: in fits mode, if the cube's antenna count differs from the number
of stations of the observation, `run` returns the failure status 1 with
the observation context (hence the parameter set) and the filesystem both
unchanged: nothing at the target path is created, deleted or modified. -/
theorem C4_theorem (obs : Obs) (h5f ff : String) (cube : FitsCube) (fs : FS)
    (h : cube.nstations ≠ obs.stations.length) :
    run obs "fits" h5f ff cube fs = .ok (1, obs, fs) := by
  simp [run, h]

/-- C4, witness: a 1-station cube against a 0-station observation. -/
theorem C4_witness :
    run obs0 "fits" "out.h5" "in.fits" cubeC2 fs0 = .ok (1, obs0, fs0) :=
  C4_theorem obs0 "out.h5" "in.fits" cubeC2 fs0 (by decide)

/-- C5: every invocation in wave mode terminates with the unconditional
division-by-zero fault of line 161 (`0/0`).  The error return carries no
state: the exception propagates before any h5parm write (the wave branch
contains none) and before the parameter-set update, so no solution table
is ever written in this mode. -/
theorem C5_theorem (obs : Obs) (h5f ff : String) (cube : FitsCube) (fs : FS) :
    run obs "wave" h5f ff cube fs = .error .zeroDivisionError :=
  rfl

/-- C6: the correction-steps key update is append-if-present /
create-if-absent: the updated key always holds the previous list (empty if
the key was absent) with the single entry "tec" appended, preserving
existing entries in order. -/
theorem C6_theorem (obs : Obs) (h5f : String) :
    (updateParset obs h5f).parset.steps = some (obs.parset.steps.getD [] ++ ["tec"]) := by
  cases h : obs.parset.steps <;> simp [updateParset, h]

/-- C2: evaluation of the code at the failing input.  The single direction
of `obsC2` projects to pixel (x, y) = (1, 0) with `nx = 1`, so x lies
outside [0, nx); the claim requires it to be flagged neutrally (value 1.0,
weight 0) without failing, but the line-97 guard `x > nx` lets `x = nx`
through and the lookup `data[t, f, s, y, x]` raises `IndexError`, aborting
the run.  The second conjunct records that the failing pixel is indeed the
boundary one. -/
theorem C2_theorem :
    run obsC2 "fits" "out.h5" "in.fits" cubeC2 fs0 = .error .indexError ∧
    pixelX cubeC2 (mkRat 0 1) (mkRat 0 1) = 1 ∧ cubeC2.nx = 1 := by
  exact ⟨rfl, by decide, rfl⟩

/-- Helper: Python truncation toward zero expressed through the floor and
ceiling functions: it is the floor for nonnegative rationals and the
ceiling for negative ones. -/
theorem pyInt_eq_floor_or_ceil (q : ℚ) :
    pyInt q = if 0 ≤ q then ⌊q⌋ else ⌈q⌉ := by
  unfold pyInt
  split
  · rename_i h
    rw [Rat.floor_def]
    exact Int.tdiv_eq_ediv (Rat.num_nonneg.mpr h) (Int.natCast_nonneg _)
  · rename_i h
    push_neg at h
    have h2 : (0 : ℚ) ≤ -q := le_of_lt (neg_pos.mpr h)
    have hq : (-q).num.tdiv (-q).den = ⌊-q⌋ := by
      rw [Rat.floor_def]
      exact Int.tdiv_eq_ediv (Rat.num_nonneg.mpr h2) (Int.natCast_nonneg _)
    have hden : ((-q).den : ℤ) = (q.den : ℤ) := rfl
    rw [Int.floor_neg, Rat.num_neg_eq_neg_num, hden, Int.neg_tdiv] at hq
    omega

/-- Cube whose WCS projects every direction to the fractional pixel
(3.7, 0). -/
def cubeC3 : FitsCube :=
  { ntimes := 1, nfreqs := 1, nstations := 1, ny := 5, nx := 5
    data := fun _ _ _ _ _ => 0
    world2pix := fun _ _ => (mkRat 37 10, mkRat 0 1)
    crval4 := 0, cdelt4 := 0, crval3 := 0, cdelt3 := 0 }

/-- C3, counterexample: the pixel used by the code is not the
nearest-integer rounding of the fractional coordinate: for the fractional
x coordinate 3.7 the code computes pixel 3 while rounding to the nearest
integer gives 4. -/
theorem C3_counterexample :
    pixelX cubeC3 (mkRat 0 1) (mkRat 0 1) ≠
      round ((cubeC3.world2pix (mkRat 0 1) (mkRat 0 1)).1) := by
  have h1 : pixelX cubeC3 (mkRat 0 1) (mkRat 0 1) = 3 := by decide
  have h2 : round ((cubeC3.world2pix (mkRat 0 1) (mkRat 0 1)).1) = 4 := by
    show round (mkRat 37 10) = 4
    norm_num [round_eq, mkRat, Rat.normalize]
  rw [h1, h2]
  decide

/-- C3, amended: the fractional pixel coordinate obtained from the cube's
coordinate descriptor is truncated toward zero (Python `int()`), i.e.
floored when nonnegative and ceiled when negative, before the bounds test
and lookup — so 3.7 maps to pixel 3 (not 4) and -0.4 maps to pixel 0. -/
theorem C3_amended (cube : FitsCube) (ra dec : ℚ) :
    pixelX cube ra dec =
      (if 0 ≤ (cube.world2pix ra dec).1 then ⌊(cube.world2pix ra dec).1⌋
        else ⌈(cube.world2pix ra dec).1⌉) ∧
    pixelY cube ra dec =
      (if 0 ≤ (cube.world2pix ra dec).2 then ⌊(cube.world2pix ra dec).2⌋
        else ⌈(cube.world2pix ra dec).2⌉) :=
  ⟨pyInt_eq_floor_or_ceil _, pyInt_eq_floor_or_ceil _⟩

/-- Helper: length of a reconstructed axis. -/
theorem axisVals_length (ref incr : ℚ) (n : Nat) :
    (axisVals ref incr n).length = n := by
  rw [axisVals, List.length_map, List.length_range]

/-- Helper: entry `i < n` of a reconstructed axis is `ref + incr * i`. -/
theorem axisVals_getElem (ref incr : ℚ) (n i : Nat) (h : i < n) :
    (axisVals ref incr n)[i]? = some (ref + incr * (i : ℚ)) := by
  rw [axisVals, List.getElem?_map, List.getElem?_range h, Option.map_some']

/-- C7: the time and frequency axes of the produced soltab are
reconstructed linearly from the cube's reference value and increment:
they have lengths `ntimes` and `nfreqs`, and for indices `i < ntimes`,
`j < nfreqs` the entries are `crval4 + cdelt4 * i` and
`crval3 + cdelt3 * j` (index 0 giving the reference value). -/
theorem C7_theorem (obs : Obs) (cube : FitsCube) (h5f ff : String) (i j : Nat)
    (hi : i < cube.ntimes) (hj : j < cube.nfreqs) :
    (tecSoltab obs cube h5f ff).timeVals.length = cube.ntimes ∧
    (tecSoltab obs cube h5f ff).freqVals.length = cube.nfreqs ∧
    (tecSoltab obs cube h5f ff).timeVals[i]? = some (cube.crval4 + cube.cdelt4 * (i : ℚ)) ∧
    (tecSoltab obs cube h5f ff).freqVals[j]? = some (cube.crval3 + cube.cdelt3 * (j : ℚ)) :=
  ⟨axisVals_length _ _ _, axisVals_length _ _ _,
    axisVals_getElem _ _ _ _ hi, axisVals_getElem _ _ _ _ hj⟩

/-- Cube used by the C7 witness: 3 time samples, 2 frequency samples. -/
def cubeC7 : FitsCube :=
  { ntimes := 3, nfreqs := 2, nstations := 1, ny := 1, nx := 1
    data := fun _ _ _ _ _ => 0
    world2pix := fun _ _ => (mkRat 0 1, mkRat 0 1)
    crval4 := mkRat 100 1, cdelt4 := mkRat 10 1
    crval3 := mkRat 54 1, cdelt3 := mkRat 2 1 }

/-- C7, witness at time index 2 and frequency index 1. -/
theorem C7_witness :
    (tecSoltab obs0 cubeC7 "o.h5" "i.fits").timeVals.length = cubeC7.ntimes ∧
    (tecSoltab obs0 cubeC7 "o.h5" "i.fits").freqVals.length = cubeC7.nfreqs ∧
    (tecSoltab obs0 cubeC7 "o.h5" "i.fits").timeVals[2]? =
      some (cubeC7.crval4 + cubeC7.cdelt4 * ((2 : Nat) : ℚ)) ∧
    (tecSoltab obs0 cubeC7 "o.h5" "i.fits").freqVals[1]? =
      some (cubeC7.crval3 + cubeC7.cdelt3 * ((1 : Nat) : ℚ)) :=
  C7_theorem obs0 cubeC7 "o.h5" "i.fits" 2 1 (by decide) (by decide)

/-- Helper: value entry of a direction that exists in the patch list. -/
theorem fitsVals_eq (cube : FitsCube) (patches : List (String × ℚ × ℚ))
    (t s d f : Nat) (nm : String) (ra dec : ℚ) (hd : patches[d]? = some (nm, ra, dec)) :
    fitsVals cube patches t s d f =
      if flaggedDir cube ra dec then 1
      else cube.data t f s (pixelY cube ra dec).toNat (pixelX cube ra dec).toNat := by
  simp [fitsVals, hd]

/-- Helper: weight entry of a direction that exists in the patch list. -/
theorem fitsWeights_eq (cube : FitsCube) (patches : List (String × ℚ × ℚ))
    (t s d f : Nat) (nm : String) (ra dec : ℚ) (hd : patches[d]? = some (nm, ra, dec)) :
    fitsWeights cube patches t s d f = if flaggedDir cube ra dec then 0 else 1 := by
  simp [fitsWeights, hd]

/-- Helper: a pixel inside [0, nx) × [0, ny) is not flagged. -/
theorem flaggedDir_eq_false (cube : FitsCube) (ra dec : ℚ)
    (hx0 : 0 ≤ pixelX cube ra dec) (hx1 : pixelX cube ra dec < (cube.nx : ℤ))
    (hy0 : 0 ≤ pixelY cube ra dec) (hy1 : pixelY cube ra dec < (cube.ny : ℤ)) :
    flaggedDir cube ra dec = false := by
  simp only [flaggedDir, Bool.or_eq_false_iff, decide_eq_false_iff_not, not_lt, gt_iff_lt]
  omega

/-- C8: for every direction of the patch list whose pixel (x, y) lies
inside [0, nx) × [0, ny), and every index triple (t, s, f), the produced
value at (t, s, d, f) is the cube's value at (t, f, s, y, x) and the
corresponding weight is 1. -/
theorem C8_theorem (obs : Obs) (cube : FitsCube) (h5f ff : String)
    (t s d f : Nat) (nm : String) (ra dec : ℚ)
    (hd : obs.patches[d]? = some (nm, ra, dec))
    (hx0 : 0 ≤ pixelX cube ra dec) (hx1 : pixelX cube ra dec < (cube.nx : ℤ))
    (hy0 : 0 ≤ pixelY cube ra dec) (hy1 : pixelY cube ra dec < (cube.ny : ℤ)) :
    (tecSoltab obs cube h5f ff).vals t s d f =
      cube.data t f s (pixelY cube ra dec).toNat (pixelX cube ra dec).toNat ∧
    (tecSoltab obs cube h5f ff).weights t s d f = 1 := by
  have hfl : flaggedDir cube ra dec = false :=
    flaggedDir_eq_false cube ra dec hx0 hx1 hy0 hy1
  constructor
  · rw [show (tecSoltab obs cube h5f ff).vals = fitsVals cube obs.patches from rfl,
      fitsVals_eq cube obs.patches t s d f nm ra dec hd, hfl]
    simp
  · rw [show (tecSoltab obs cube h5f ff).weights = fitsWeights cube obs.patches from rfl,
      fitsWeights_eq cube obs.patches t s d f nm ra dec hd, hfl]
    simp

/-- Observation with a single patch and a single station, used by the
C8/C9/C10 witnesses. -/
def obsC8 : Obs :=
  { patches := [("src0", mkRat 0 1, mkRat 0 1)]
    stations := ["st0"]
    stationpos := [(0, 0, 0)]
    parset := pset0 }

/-- Cube of shape (1, 1, 1, 1, 1) projecting every direction to the
in-bounds pixel (0, 0). -/
def cubeC8 : FitsCube :=
  { ntimes := 1, nfreqs := 1, nstations := 1, ny := 1, nx := 1
    data := fun _ _ _ _ _ => mkRat 7 2
    world2pix := fun _ _ => (mkRat 0 1, mkRat 0 1)
    crval4 := 0, cdelt4 := 0, crval3 := 0, cdelt3 := 0 }

/-- C8, witness at direction 0 and index triple (0, 0, 0). -/
theorem C8_witness :
    (tecSoltab obsC8 cubeC8 "o8.h5" "i8.fits").vals 0 0 0 0 =
      cubeC8.data 0 0 0 (pixelY cubeC8 (mkRat 0 1) (mkRat 0 1)).toNat
        (pixelX cubeC8 (mkRat 0 1) (mkRat 0 1)).toNat ∧
    (tecSoltab obsC8 cubeC8 "o8.h5" "i8.fits").weights 0 0 0 0 = 1 :=
  C8_theorem obsC8 cubeC8 "o8.h5" "i8.fits" 0 0 0 0 "src0" (mkRat 0 1) (mkRat 0 1)
    rfl (by decide) (by decide) (by decide) (by decide)

/-- C9: a successful fits-mode run leaves at the output path exactly the
fresh h5parm built from this run's inputs — one solset holding one soltab,
the two side tables and one provenance entry — independently of whatever
the path held before (deleted, no merge, no backup), and leaves every
other path untouched. -/
theorem C9_theorem (obs : Obs) (cube : FitsCube) (h5f ff q : String) (fs : FS)
    (obs2 : Obs) (fs2 : FS)
    (h : run obs "fits" h5f ff cube fs = .ok (0, obs2, fs2)) (hq : q ≠ h5f) :
    fs2 h5f = some (tecH5 obs cube h5f ff) ∧ fs2 q = fs q := by
  rw [run, if_pos rfl] at h
  split at h
  · simp at h
  · split at h
    · simp at h
    · simp only [Except.ok.injEq, Prod.mk.injEq] at h
      obtain ⟨-, -, hfs⟩ := h
      subst hfs
      constructor
      · simp [fsWrite]
      · rw [show (fsWrite h5f (tecH5 obs cube h5f ff)
            (if (fs h5f).isSome then fsRemove h5f fs else fs)) q =
            (if (fs h5f).isSome then fsRemove h5f fs else fs) q from by simp [fsWrite, hq]]
        split
        · simp [fsRemove, hq]
        · rfl

/-- Filesystem already holding an h5parm at the output path. -/
def fsC9 : FS := fun p =>
  if p = "out.h5" then some { solsets := [] } else none

/-- C9, witness: a successful run over `fsC9`, whose output path holds a
table from a prior run; afterwards the path holds exactly the new content
and the unrelated path "other.h5" is untouched. -/
theorem C9_witness :
    (fsWrite "out.h5" (tecH5 obsC8 cubeC8 "out.h5" "in.fits")
      (fsRemove "out.h5" fsC9)) "out.h5" = some (tecH5 obsC8 cubeC8 "out.h5" "in.fits") ∧
    (fsWrite "out.h5" (tecH5 obsC8 cubeC8 "out.h5" "in.fits")
      (fsRemove "out.h5" fsC9)) "other.h5" = fsC9 "other.h5" :=
  C9_theorem obsC8 cubeC8 "out.h5" "in.fits" "other.h5" fsC9
    (updateParset obsC8 "out.h5")
    (fsWrite "out.h5" (tecH5 obsC8 cubeC8 "out.h5" "in.fits") (fsRemove "out.h5" fsC9))
    rfl (by decide)

/-- C10: the produced value and weight arrays share the same recorded
shape (ntimes × nstations × ndirs × nfreqs); every weight entry of a
direction of the patch list is 0 or 1; and the weight entry at any
(t, s, d, f) is 0 exactly when direction d was flagged out of bounds — a
condition independent of (t, s, f), so a flagged direction has every one
of its weight entries equal to 0. -/
theorem C10_theorem (obs : Obs) (cube : FitsCube) (h5f ff : String)
    (t s d f : Nat) (nm : String) (ra dec : ℚ)
    (hd : obs.patches[d]? = some (nm, ra, dec)) :
    (tecSoltab obs cube h5f ff).weightsShape = (tecSoltab obs cube h5f ff).valsShape ∧
    ((tecSoltab obs cube h5f ff).weights t s d f = 0 ∨
      (tecSoltab obs cube h5f ff).weights t s d f = 1) ∧
    ((tecSoltab obs cube h5f ff).weights t s d f = 0 ↔ flaggedDir cube ra dec = true) := by
  have hw : (tecSoltab obs cube h5f ff).weights t s d f =
      if flaggedDir cube ra dec then 0 else 1 :=
    fitsWeights_eq cube obs.patches t s d f nm ra dec hd
  refine ⟨rfl, ?_, ?_⟩
  · rw [hw]
    cases flaggedDir cube ra dec <;> simp
  · rw [hw]
    cases flaggedDir cube ra dec <;> simp

/-- Cube projecting every direction to the fractional pixel (-1, 0),
which the guard flags (x < 0). -/
def cubeC10 : FitsCube :=
  { ntimes := 1, nfreqs := 1, nstations := 1, ny := 1, nx := 1
    data := fun _ _ _ _ _ => 0
    world2pix := fun _ _ => (mkRat (-1) 1, mkRat 0 1)
    crval4 := 0, cdelt4 := 0, crval3 := 0, cdelt3 := 0 }

/-- C10, witness at direction 0 (a flagged direction) and indices (0, 0, 0). -/
theorem C10_witness :
    (tecSoltab obsC8 cubeC10 "o.h5" "i.fits").weightsShape =
      (tecSoltab obsC8 cubeC10 "o.h5" "i.fits").valsShape ∧
    ((tecSoltab obsC8 cubeC10 "o.h5" "i.fits").weights 0 0 0 0 = 0 ∨
      (tecSoltab obsC8 cubeC10 "o.h5" "i.fits").weights 0 0 0 0 = 1) ∧
    ((tecSoltab obsC8 cubeC10 "o.h5" "i.fits").weights 0 0 0 0 = 0 ↔
      flaggedDir cubeC10 (mkRat 0 1) (mkRat 0 1) = true) :=
  C10_theorem obsC8 cubeC10 "o.h5" "i.fits" 0 0 0 0 "src0" (mkRat 0 1) (mkRat 0 1) rfl

end Losito
